import Mathlib

/-!
Shallow embedding of the nanobanana batch image-generation orchestrator
(`src/plugins/nanobanana/main.py`) and verification of its specification.

Text (prompts, error messages, file paths) is modelled as `List Char`.
Remote-service behaviour and filesystem state are modelled by an explicit
environment `Env`: `respond item attempt` is the outcome of the remote call
made for a given item on a given attempt (raising an exception is
`Except.error msg`), and `files p` says whether a path exists.  Side effects
(remote calls, file writes, process exit) are returned explicitly.
-/

/-! ## Error codes (class ErrorCode) -/

inductive ErrorCode where
  | SUCCESS
  | API_KEY_MISSING
  | FILE_NOT_FOUND
  | INVALID_INPUT
  | RATE_LIMITED
  | NETWORK_ERROR
  | API_ERROR
  | CONTENT_POLICY
  | TIMEOUT
  | PARTIAL_FAILURE
deriving DecidableEq, Repr

/-! ## Text helpers (Python string operations used by the source) -/

/-- Apostrophe character (codepoint 39), used by `shlex.quote`. -/
def squote : Char := Char.ofNat 39

/-- Double-quote character (codepoint 34), used by `shlex.quote`. -/
def dquote : Char := Char.ofNat 34

/-- Codepoints of the characters stripped by Python `str.strip()`
(Unicode whitespace as recognised by CPython). -/
def pyWhitespace : List Nat :=
  [9, 10, 11, 12, 13, 28, 29, 30, 31, 32, 133, 160, 5760,
   8192, 8193, 8194, 8195, 8196, 8197, 8198, 8199, 8200, 8201, 8202,
   8232, 8233, 8239, 8287, 12288]

def pyIsSpace (c : Char) : Bool := pyWhitespace.contains c.toNat

/-- Python `str.strip()`: drop whitespace from both ends. -/
def pyStrip (s : List Char) : List Char :=
  ((s.dropWhile pyIsSpace).reverse.dropWhile pyIsSpace).reverse

/-- Python `str.lower()` (ASCII case mapping; every string the source
compares against is ASCII). -/
def lowerStr (s : List Char) : List Char := s.map Char.toLower

/-- Python substring containment `needle in hay`. -/
def containsSub (hay needle : List Char) : Bool :=
  needle.isPrefixOf hay ||
    (match hay with
     | [] => false
     | _ :: t => containsSub t needle)

/-! ## Sanitizer (sanitize_prompt, line 79) -/

/-- The character class of `SHELL_DANGEROUS_CHARS`
(regex `[;&|` ++ backtick ++ `$(){}[\]<>\\!]`, line 66); the backtick and the
braces are written by codepoint (96, 123, 125). -/
def SHELL_DANGEROUS_CHARS : List Char :=
  [';', '&', '|', Char.ofNat 96, '$', '(', ')', Char.ofNat 123,
   Char.ofNat 125, '[', ']', '<', '>', '\\', '!']

def hasDangerousChar (s : List Char) : Bool :=
  s.any (fun c => SHELL_DANGEROUS_CHARS.contains c)

/-- Characters `shlex.quote` leaves unquoted: the complement of CPython's
`_find_unsafe` regex (ASCII word characters plus at-sign, percent, plus,
equals, colon, comma, dot, slash and dash). -/
def shlexSafeChar (c : Char) : Bool :=
  c.isAlpha || c.isDigit || c = '_' || c = '@' || c = '%' || c = '+' ||
    c = '=' || c = ':' || c = ',' || c = '.' || c = '/' || c = '-'

/-- CPython `shlex.quote`: empty string becomes two apostrophes; a string of
only safe characters is returned unchanged; otherwise the string is wrapped
in apostrophes with every embedded apostrophe replaced by the five-character
sequence apostrophe, double-quote, apostrophe, double-quote, apostrophe. -/
def shlexQuote (s : List Char) : List Char :=
  if s.isEmpty then [squote, squote]
  else if s.all shlexSafeChar then s
  else
    squote ::
      (s.flatMap fun c =>
        if c = squote then [squote, dquote, squote, dquote, squote] else [c])
      ++ [squote]

def emptyPromptMsg : List Char := "Prompt cannot be empty".toList

/-- Embeds `sanitize_prompt` (lines 79-87): raising `ValueError` is
`Except.error` with the exception text. -/
def sanitize_prompt (prompt : List Char) : Except (List Char) (List Char) :=
  if prompt.isEmpty || (pyStrip prompt).isEmpty then Except.error emptyPromptMsg
  else if hasDangerousChar prompt then Except.ok (shlexQuote prompt)
  else Except.ok prompt

/-! ## Error classifier (is_retryable_error, line 123) -/

def RETRYABLE_ERRORS : List (List Char) :=
  ["rate limit".toList, "429".toList, "503".toList, "502".toList,
   "connection".toList, "timeout".toList, "temporarily unavailable".toList]

/-- Embeds `is_retryable_error` (lines 123-126). -/
def is_retryable_error (error_str : List Char) : Bool :=
  RETRYABLE_ERRORS.any (fun pattern => containsSub (lowerStr error_str) pattern)

/-! ## Backoff policy (calculate_backoff, line 129)

The Python source computes over IEEE doubles; the embedding uses exact
rationals (scaling by a power of two is exact in binary floating point, and
with the default arguments every value taken is a small integer). -/

/-- Embeds `calculate_backoff` (lines 129-142); in the source `base_delay`
defaults to 1.0 and `max_delay` to 60.0. -/
def calculate_backoff (attempt : Nat) (base_delay max_delay : ℚ) : ℚ :=
  min (base_delay * 2 ^ attempt) max_delay

/-! ## Result dictionaries -/

/-- One per-item result dictionary; the Python dicts carry varying key sets,
so every key that is sometimes absent is an `Option`. -/
structure ItemResult where
  prompt : Option (List Char)
  output : Option (List Char)
  success : Bool
  error_code : Option ErrorCode
  error : Option (List Char)
  retries_used : Option Nat
deriving DecidableEq, Repr

/-- The `ResultDict` returned by `generate_image` (lines 50-59). -/
structure ResultDict where
  success : Bool
  error_code : ErrorCode
  error : Option (List Char)
  results : List ItemResult
  total : Nat
  succeeded : Nat
  failed : Nat
  retries_used : Option Nat
deriving DecidableEq, Repr

/-! ## Environment: remote service and filesystem oracles -/

/-- One part of a remote response; `inline_data` is `some` when the part has
a truthy `inline_data` attribute (an image payload). -/
structure RespPart where
  inline_data : Option (List Char)
deriving DecidableEq, Repr

/-- The process environment, remote service, and filesystem, made explicit.
`respond item attempt` abstracts the `client.models.generate_content` call
issued for a given item index on a given attempt: `Except.error msg` is the
call raising an exception with text `msg`, `Except.ok parts` a returned
response with the given candidate content parts (the prompt text, aspect
ratio and model id are forwarded opaquely to the remote call and do not
influence control flow, so they are absorbed into the oracle). -/
structure Env where
  api_key : Option (List Char)
  files : List Char → Bool
  respond : Nat → Nat → Except (List Char) (List RespPart)

/-! ## Retry executor (retry_with_backoff, lines 145-191) -/

def DEFAULT_MAX_RETRIES : Nat := 3

/-- Message built at retry exhaustion (line 187). -/
def failAfterMsg (max_retries : Nat) (e : List Char) : List Char :=
  "Failed after ".toList ++ Nat.toDigits 10 max_retries ++
    " retries: ".toList ++ e

/-- The non-retryable failure dictionary (lines 170-175).  Note it carries no
prompt key. -/
def apiErrorResult (e : List Char) (ru : Nat) : ItemResult :=
  ⟨none, none, false, some ErrorCode.API_ERROR, some e, some ru⟩

/-- The retries-exhausted failure dictionary (lines 184-189); classified
`RATE_LIMITED` when the final error text mentions "rate" (lowercased),
`NETWORK_ERROR` otherwise.  Note it carries no prompt key. -/
def exhaustResult (max_retries : Nat) (e : List Char) (ru : Nat) : ItemResult :=
  ⟨none, none, false,
   some (if containsSub (lowerStr e) ("rate".toList) then ErrorCode.RATE_LIMITED
         else ErrorCode.NETWORK_ERROR),
   some (failAfterMsg max_retries e), some ru⟩

/-- Outcome of the retry executor, with the attempt indices at which the
wrapped operation was invoked and the file paths written, made explicit. -/
structure RetryResult where
  result : ItemResult
  attempts : List Nat
  writes : List (List Char)
deriving Repr

/-- The loop body of `retry_with_backoff.wrapper` (lines 156-189),
`for attempt in range(max_retries + 1)`.  The operation `op` maps an attempt
index to either a raised exception (`Except.error`) or a returned dictionary
together with the file paths it wrote.  `remaining` counts the loop
iterations left after the current one (`max_retries - attempt`, so the
source's `attempt < max_retries` test is `0 < remaining`); recursion on it
keeps the definition structural.  The backoff sleep (lines 178-180) only
consumes real time and is not modelled. -/
def retryLoop (op : Nat → Except (List Char) (ItemResult × List (List Char)))
    (max_retries : Nat) : Nat → Nat → Nat → RetryResult
  | remaining, attempt, retries_used =>
    match op attempt with
    | Except.ok (r, ws) => ⟨{ r with retries_used := some retries_used }, [attempt], ws⟩
    | Except.error e =>
      if is_retryable_error e then
        match remaining with
        | rem + 1 =>
          let r2 := retryLoop op max_retries rem (attempt + 1) (retries_used + 1)
          ⟨r2.result, attempt :: r2.attempts, r2.writes⟩
        | 0 => ⟨exhaustResult max_retries e retries_used, [attempt], []⟩
      else ⟨apiErrorResult e retries_used, [attempt], []⟩

/-- Embeds `retry_with_backoff` (lines 145-191): run the loop from attempt 0
with zero retries consumed and the full budget remaining. -/
def retry_with_backoff
    (op : Nat → Except (List Char) (ItemResult × List (List Char)))
    (max_retries : Nat) : RetryResult :=
  retryLoop op max_retries max_retries 0 0

/-! ## Single-image generation (generate_single_image, lines 240-294) -/

def noImageMsg : List Char := "No image in response".toList

/-- Embeds `generate_single_image` for item `item` on attempt `attempt`: the
remote call may raise; otherwise the first response part with a truthy
`inline_data` yields a success dictionary and a write of `outPath` (lines
277-287), and if no part carries an image the function returns the
"No image in response" failure dictionary (lines 289-294). -/
def generate_single_image (env : Env) (item attempt : Nat)
    (prompt outPath : List Char) :
    Except (List Char) (ItemResult × List (List Char)) :=
  match env.respond item attempt with
  | Except.error e => Except.error e
  | Except.ok parts =>
    match parts.find? (fun pt => pt.inline_data.isSome) with
    | some _ =>
      Except.ok (⟨some prompt, some outPath, true, some ErrorCode.SUCCESS,
        none, none⟩, [outPath])
    | none =>
      Except.ok (⟨some prompt, none, false, some ErrorCode.API_ERROR,
        some noImageMsg, none⟩, [])

/-! ## Output-path derivation (pathlib fragment, lines 370-374)

`Path.parent`, `Path.stem`, `Path.suffix` and `/`-joining are modelled at the
string level.  The model is faithful to `pathlib` for normalised paths (no
empty or `.` components); `pathlib`'s normalisation of redundant separators
is not reproduced. -/

/-- Split a list at the LAST occurrence of `sep`: returns
`(some before, after)` when `sep` occurs (`p = before ++ sep :: after`,
`after` free of `sep`), `(none, p)` otherwise. -/
def splitAtLast (sep : Char) : List Char → Option (List Char) × List Char
  | [] => (none, [])
  | c :: rest =>
    match splitAtLast sep rest with
    | (some d, nm) => (some (c :: d), nm)
    | (none, nm) => if c = sep then (some [], nm) else (none, c :: nm)

/-- Python `Path(p).name`: the component after the last slash. -/
def pyName (p : List Char) : List Char := (splitAtLast '/' p).2

/-- Python `str(Path(p).parent)`: `"."` when there is no slash, `"/"` for a
root-level path, otherwise everything before the last slash. -/
def pyParent (p : List Char) : List Char :=
  match splitAtLast '/' p with
  | (none, _) => ['.']
  | (some [], _) => ['/']
  | (some d, _) => d

/-- Python `Path(name).stem` on a final component: strip the extension when
the last dot is neither the first nor the last character. -/
def pyStem (name : List Char) : List Char :=
  match splitAtLast '.' name with
  | (some l, r) => if l.isEmpty || r.isEmpty then name else l
  | (none, _) => name

/-- Python `Path(name).suffix` on a final component. -/
def pySuffix (name : List Char) : List Char :=
  match splitAtLast '.' name with
  | (some l, r) => if l.isEmpty || r.isEmpty then [] else '.' :: r
  | (none, _) => []

/-- Python `str(Path(dir) / name)` for a normalised `dir`. -/
def pyJoin (dir name : List Char) : List Char :=
  if dir = ['.'] then name
  else if dir = ['/'] then '/' :: name
  else dir ++ '/' :: name

/-- Python `f"{n:03d}"`: decimal digits, zero-padded on the left to width 3. -/
def fmt03 (n : Nat) : List Char :=
  let ds := Nat.toDigits 10 n
  List.replicate (3 - ds.length) '0' ++ ds

/-- The output path for item `i` (0-based), lines 370-374: the given path
verbatim for a single-prompt batch, otherwise
`parent / (stem ++ "_" ++ 3-digit (i+1) ++ suffix)`. -/
def genOutPath (output_base : List Char) (numPrompts i : Nat) : List Char :=
  if 1 < numPrompts then
    pyJoin (pyParent output_base)
      (pyStem (pyName output_base) ++ '_' :: fmt03 (i + 1)
        ++ pySuffix (pyName output_base))
  else output_base

/-! ## Batch orchestrator (generate_image, lines 297-405) -/

/-- The invalid-prompt dictionary appended at lines 362-367. -/
def invalidInputResult (prompt e : List Char) : ItemResult :=
  ⟨some prompt, none, false, some ErrorCode.INVALID_INPUT, some e, none⟩

/-- Per-item outcome together with the remote calls `(item, attempt)` made
and the file paths written while processing it. -/
structure ItemOut where
  result : ItemResult
  calls : List (Nat × Nat)
  writes : List (List Char)
deriving Repr

/-- One iteration of the batch loop (lines 357-392): sanitize, derive the
output path, run the retry executor around the single-generation call.
A sanitizer failure records an invalid-input result and makes no remote
call.  The retry budget is `DEFAULT_MAX_RETRIES`: the decorator at line 377
is applied without forwarding `generate_image`'s `max_retries` parameter,
so that parameter is unused. -/
def processItem (env : Env) (numPrompts : Nat) (output_base : List Char)
    (i : Nat) (prompt : List Char) : ItemOut :=
  match sanitize_prompt prompt with
  | Except.error e => ⟨invalidInputResult prompt e, [], []⟩
  | Except.ok safePrompt =>
    let outPath := genOutPath output_base numPrompts i
    let r := retry_with_backoff
      (fun a => generate_single_image env i a safePrompt outPath)
      DEFAULT_MAX_RETRIES
    ⟨r.result, r.attempts.map (fun a => (i, a)), r.writes⟩

/-- The missing-credential dictionary (lines 325-333). -/
def missingKeyDict (numPrompts : Nat) : ResultDict :=
  ⟨false, ErrorCode.API_KEY_MISSING, some ("GEMINI_API_KEY not set".toList),
   [], numPrompts, 0, numPrompts, none⟩

/-- Existence check for the shared inputs loaded before the batch loop:
style file (line 201), each reference image (line 345) and the edit-target
image (line 351), in source order; `load_style` and `load_image` call
`sys.exit(1)` when the file is absent. -/
def sharedInputsOk (env : Env) (style_path edit_path : Option (List Char))
    (ref_paths : List (List Char)) : Bool :=
  (match style_path with
   | some sp => env.files sp
   | none => true)
  && ref_paths.all env.files
  && (match edit_path with
      | some ep => env.files ep
      | none => true)

/-- Outcome of one `generate_image` invocation: either a returned
`ResultDict` or a process exit (`Except.error code` embeds `sys.exit(code)`),
together with every remote call made and every file path written. -/
structure GenOut where
  outcome : Except Nat ResultDict
  calls : List (Nat × Nat)
  writes : List (List Char)

/-- Embeds `generate_image` (lines 297-405).  The credential is looked up
first (line 323); when absent a `missing-credential`-shaped dictionary is
returned with no further work.  When any shared input file is absent the
process exits with code 1 before the loop, making no remote call.  Otherwise
every prompt is processed in order and aggregated (lines 394-405).  The
style text, aspect ratio and model id only alter the outbound request and
are absorbed by `Env.respond`; `max_retries` is accepted but unused (the
decorator at line 377 does not forward it). -/
def generate_image (env : Env) (prompts : List (List Char))
    (output_path : List Char) (style_path edit_path : Option (List Char))
    (ref_paths : List (List Char)) (max_retries : Nat) : GenOut :=
  match env.api_key with
  | none => ⟨Except.ok (missingKeyDict prompts.length), [], []⟩
  | some _ =>
    if sharedInputsOk env style_path edit_path ref_paths then
      let items := prompts.enum.map
        (fun ip => processItem env prompts.length output_path ip.1 ip.2)
      let results := items.map ItemOut.result
      let succeeded := (results.filter (fun r => r.success)).length
      let failed := results.length - succeeded
      ⟨Except.ok ⟨failed == 0,
        (if failed == 0 then ErrorCode.SUCCESS else ErrorCode.PARTIAL_FAILURE),
        none, results, prompts.length, succeeded, failed,
        some ((results.map (fun r => r.retries_used.getD 0)).sum)⟩,
       items.flatMap ItemOut.calls, items.flatMap ItemOut.writes⟩
    else ⟨Except.error 1, [], []⟩

/-! ## Helper lemmas -/

lemma splitAtLast_none_eq (sep : Char) :
    ∀ p nm : List Char, splitAtLast sep p = (none, nm) → p = nm := by
  intro p
  induction p with
  | nil =>
    intro nm h
    simp only [splitAtLast, Prod.mk.injEq] at h
    exact h.2
  | cons c rest ih =>
    intro nm h
    rw [splitAtLast] at h
    cases hr : splitAtLast sep rest with
    | mk o rnm =>
      rw [hr] at h
      cases o with
      | some d0 => simp at h
      | none =>
        by_cases hc : c = sep
        · simp [hc] at h
        · simp only [if_neg hc, Prod.mk.injEq] at h
          rw [← h.2, ih rnm hr]

lemma splitAtLast_some_eq (sep : Char) :
    ∀ p d nm : List Char, splitAtLast sep p = (some d, nm) → p = d ++ sep :: nm := by
  intro p
  induction p with
  | nil =>
    intro d nm h
    simp [splitAtLast] at h
  | cons c rest ih =>
    intro d nm h
    rw [splitAtLast] at h
    cases hr : splitAtLast sep rest with
    | mk o rnm =>
      rw [hr] at h
      cases o with
      | some d0 =>
        simp only [Prod.mk.injEq, Option.some.injEq] at h
        rw [← h.1, ← h.2, List.cons_append]
        exact congrArg (c :: ·) (ih d0 rnm hr)
      | none =>
        by_cases hc : c = sep
        · simp only [if_pos hc, Prod.mk.injEq, Option.some.injEq] at h
          rw [← h.1, ← h.2, List.nil_append, hc]
          exact congrArg (sep :: ·) (splitAtLast_none_eq sep rest rnm hr)
        · simp [if_neg hc] at h

/-- A final path component is its stem followed by its suffix. -/
lemma pyStem_append_pySuffix (nm : List Char) : pyStem nm ++ pySuffix nm = nm := by
  unfold pyStem pySuffix
  cases h : splitAtLast '.' nm with
  | mk o r =>
    cases o with
    | none => simp
    | some l =>
      cases hb : (l.isEmpty || r.isEmpty) with
      | true => simp [hb]
      | false =>
        simp only [hb, Bool.false_eq_true, if_false]
        exact (splitAtLast_some_eq '.' nm l r h).symm

/-- Length bound on decimal rendering: `f"{m:03d}"` has exactly three
characters for `m < 1000`. -/
lemma fmt03_length (m : Nat) (h : m < 1000) : (fmt03 m).length = 3 := by
  have hle : (Nat.toDigits 10 m).length ≤ 3 := by
    have := Nat.toDigitsCore_length 10 (by norm_num) (m + 1) m 3
      (by simpa using h) (by norm_num)
    simpa [Nat.toDigits] using this
  simp only [fmt03, List.length_append, List.length_replicate]
  omega

/-- Unfolded form of the exhausted retry loop: when every attempt raises a
retryable error, the loop walks the remaining budget and terminates with the
exhaustion dictionary. -/
lemma retryLoop_exhaust
    (op : Nat → Except (List Char) (ItemResult × List (List Char)))
    (err : Nat → List Char) (N : Nat)
    (hop : ∀ a, op a = Except.error (err a))
    (hr : ∀ a, is_retryable_error (err a) = true) :
    ∀ rem attempt ru : Nat,
      retryLoop op N rem attempt ru =
        ⟨exhaustResult N (err (attempt + rem)) (ru + rem),
         List.range' attempt (rem + 1), []⟩ := by
  intro rem
  induction rem with
  | zero =>
    intro attempt ru
    rw [retryLoop.eq_def]
    dsimp only
    rw [hop]
    dsimp only
    rw [if_pos (hr attempt)]
    rfl
  | succ k ih =>
    intro attempt ru
    rw [retryLoop.eq_def]
    dsimp only
    rw [hop]
    dsimp only
    rw [if_pos (hr attempt)]
    rw [ih (attempt + 1) (ru + 1)]
    have h1 : attempt + 1 + k = attempt + (k + 1) := by omega
    have h2 : ru + 1 + k = ru + (k + 1) := by omega
    rw [h1, h2]
    conv_rhs => rw [List.range'_succ]

/-! ## Claims -/

/-- C8: `calculate_backoff(a, base, cap) = min(base * 2^a, cap)`; with the
default arguments `base = 1` and `cap = 60` the delay is monotonically
non-decreasing in the attempt index and bounded above by the cap, and the
function is deterministic (identical inputs give identical outputs). -/
theorem C8_backoff_policy :
    (∀ (a : Nat) (base cap : ℚ), calculate_backoff a base cap = min (base * 2 ^ a) cap)
    ∧ (∀ a b : Nat, a ≤ b → calculate_backoff a 1 60 ≤ calculate_backoff b 1 60)
    ∧ (∀ a : Nat, calculate_backoff a 1 60 ≤ 60)
    ∧ (∀ (a a2 : Nat) (base base2 cap cap2 : ℚ), a = a2 → base = base2 → cap = cap2 →
        calculate_backoff a base cap = calculate_backoff a2 base2 cap2) := by
  refine ⟨fun a base cap => rfl, ?_, fun a => min_le_right _ _, ?_⟩
  · intro a b h
    unfold calculate_backoff
    exact min_le_min (by simpa using pow_le_pow_right₀ (by norm_num : (1:ℚ) ≤ 2) h) le_rfl
  · rintro a _ base _ cap _ rfl rfl rfl
    rfl

/-- Witness for C8 at concrete attempt indices 2 ≤ 7. -/
theorem C8_backoff_policy_witness :
    (2 : Nat) ≤ 7 ∧ calculate_backoff 2 1 60 ≤ calculate_backoff 7 1 60 :=
  ⟨by norm_num, C8_backoff_policy.2.1 2 7 (by norm_num)⟩

/-- C3: an error is retryable iff its lowercase text contains one of the
seven fixed vocabulary entries, and a non-retryable error on the first
invocation makes the retry executor terminate after exactly one attempt with
an api-error outcome and zero retries used, whatever the remaining budget. -/
theorem C3_retryable_classification :
    (∀ s : List Char, is_retryable_error s = true ↔
        ∃ pat ∈ RETRYABLE_ERRORS, containsSub (lowerStr s) pat = true)
    ∧ RETRYABLE_ERRORS = ["rate limit".toList, "429".toList, "503".toList,
        "502".toList, "connection".toList, "timeout".toList,
        "temporarily unavailable".toList]
    ∧ (∀ (op : Nat → Except (List Char) (ItemResult × List (List Char)))
        (N : Nat) (e : List Char),
        op 0 = Except.error e → is_retryable_error e = false →
        retry_with_backoff op N = ⟨apiErrorResult e 0, [0], []⟩) := by
  refine ⟨fun s => ?_, rfl, fun op N e hop hr => ?_⟩
  · simp [is_retryable_error, List.any_eq_true]
  · unfold retry_with_backoff
    rw [retryLoop.eq_def]
    dsimp only
    rw [hop]
    dsimp only
    simp [hr]

/-- Witness for C3 on the non-retryable error text "invalid argument" with a
retry budget of 5. -/
theorem C3_retryable_classification_witness :
    retry_with_backoff (fun _ => Except.error ("invalid argument".toList)) 5 =
      ⟨apiErrorResult ("invalid argument".toList) 0, [0], []⟩ :=
  C3_retryable_classification.2.2 _ 5 _ rfl (by decide)

/-- C2: when every attempt raises a retryable error, the retry executor with
budget N invokes the operation exactly N+1 times (at attempt indices
0, …, N), returns a failure with retries-used = N carrying the final error
message, classified rate-limited when that message mentions "rate"
(lowercased) and network-error otherwise. -/
theorem C2_retry_exhaustion
    (op : Nat → Except (List Char) (ItemResult × List (List Char)))
    (err : Nat → List Char) (N : Nat)
    (hop : ∀ a, op a = Except.error (err a))
    (hr : ∀ a, is_retryable_error (err a) = true) :
    retry_with_backoff op N = ⟨exhaustResult N (err N) N, List.range (N + 1), []⟩
    ∧ (retry_with_backoff op N).attempts.length = N + 1
    ∧ (retry_with_backoff op N).result.success = false
    ∧ (retry_with_backoff op N).result.retries_used = some N
    ∧ (retry_with_backoff op N).result.error = some (failAfterMsg N (err N))
    ∧ (retry_with_backoff op N).result.error_code =
        some (if containsSub (lowerStr (err N)) ("rate".toList)
              then ErrorCode.RATE_LIMITED else ErrorCode.NETWORK_ERROR) := by
  have h := retryLoop_exhaust op err N hop hr N 0 0
  have h0 : retry_with_backoff op N =
      ⟨exhaustResult N (err N) N, List.range (N + 1), []⟩ := by
    unfold retry_with_backoff
    rw [h, List.range_eq_range']
    norm_num
  refine ⟨h0, ?_, ?_, ?_, ?_, ?_⟩ <;> rw [h0] <;> simp [exhaustResult]

/-- Witness for C2: an operation that always raises "timeout", budget 2. -/
theorem C2_retry_exhaustion_witness :
    (retry_with_backoff (fun _ => Except.error ("timeout".toList)) 2).result.retries_used
        = some 2
    ∧ (retry_with_backoff (fun _ => Except.error ("timeout".toList)) 2).attempts.length = 3 := by
  have T := C2_retry_exhaustion (fun _ => Except.error ("timeout".toList))
      (fun _ => "timeout".toList) 2 (fun _ => rfl)
      (by intro a; show is_retryable_error ("timeout".toList) = true; decide)
  exact ⟨T.2.2.2.1, T.2.1⟩

/-- C10: a remote call that returns normally with no image part makes
`generate_single_image` return (not raise) the api-error dictionary with
message "No image in response"; the retry executor treats any returned
dictionary as final — it annotates it with the retries accumulated so far
and makes no further attempts, so a failure returned as a value is never
retried or reclassified. -/
theorem C10_no_image_is_final (env : Env) (item attempt : Nat)
    (prompt outPath : List Char) (parts : List RespPart)
    (hresp : env.respond item attempt = Except.ok parts)
    (hnone : ∀ pt ∈ parts, pt.inline_data = none) :
    generate_single_image env item attempt prompt outPath =
      Except.ok (⟨some prompt, none, false, some ErrorCode.API_ERROR,
        some noImageMsg, none⟩, [])
    ∧ (∀ (op : Nat → Except (List Char) (ItemResult × List (List Char)))
        (N rem a ru : Nat) (r : ItemResult) (ws : List (List Char)),
        op a = Except.ok (r, ws) →
        retryLoop op N rem a ru = ⟨{ r with retries_used := some ru }, [a], ws⟩)
    ∧ (∀ (op : Nat → Except (List Char) (ItemResult × List (List Char)))
        (N : Nat) (r : ItemResult) (ws : List (List Char)),
        op 0 = Except.ok (r, ws) →
        retry_with_backoff op N = ⟨{ r with retries_used := some 0 }, [0], ws⟩) := by
  have hfin : ∀ (op : Nat → Except (List Char) (ItemResult × List (List Char)))
      (N rem a ru : Nat) (r : ItemResult) (ws : List (List Char)),
      op a = Except.ok (r, ws) →
      retryLoop op N rem a ru = ⟨{ r with retries_used := some ru }, [a], ws⟩ := by
    intro op N rem a ru r ws hop
    rw [retryLoop.eq_def]
    dsimp only
    rw [hop]
  refine ⟨?_, hfin, fun op N r ws hop => hfin op N N 0 0 r ws hop⟩
  have hf : parts.find? (fun pt => pt.inline_data.isSome) = none := by
    refine List.find?_eq_none.2 (fun x hx => ?_)
    simp [hnone x hx]
  unfold generate_single_image
  rw [hresp]
  dsimp only
  rw [hf]

/-- Witness for C10: a response with two imageless parts, then the returned
failure fed back through the retry executor with budget 3. -/
theorem C10_no_image_is_final_witness :
    generate_single_image ⟨some ("k".toList), fun _ => true,
        fun _ _ => Except.ok [⟨none⟩, ⟨none⟩]⟩ 0 0 ("p".toList) ("out.png".toList) =
      Except.ok (⟨some ("p".toList), none, false, some ErrorCode.API_ERROR,
        some noImageMsg, none⟩, [])
    ∧ retry_with_backoff
        (fun _ => Except.ok (⟨some ("p".toList), none, false, some ErrorCode.API_ERROR,
          some noImageMsg, none⟩, [])) 3 =
      ⟨⟨some ("p".toList), none, false, some ErrorCode.API_ERROR,
          some noImageMsg, some 0⟩, [0], []⟩ :=
  ⟨(C10_no_image_is_final ⟨some ("k".toList), fun _ => true,
      fun _ _ => Except.ok [⟨none⟩, ⟨none⟩]⟩ 0 0 ("p".toList) ("out.png".toList)
      [⟨none⟩, ⟨none⟩] rfl (by decide)).1,
   (C10_no_image_is_final ⟨some ("k".toList), fun _ => true,
      fun _ _ => Except.ok [⟨none⟩, ⟨none⟩]⟩ 0 0 ("p".toList) ("out.png".toList)
      [⟨none⟩, ⟨none⟩] rfl (by decide)).2.2 _ 3 _ _ rfl⟩

/-! ## Batch-level helper lemmas -/

/-- Inversion for a returned batch dictionary when the credential is set:
the outcome can only be `Except.ok` of the aggregate built at lines
394-405. -/
lemma generate_image_ok_inversion (env : Env) (prompts : List (List Char))
    (output_path : List Char) (sp ep : Option (List Char))
    (rps : List (List Char)) (mr : Nat) (rd : ResultDict)
    (hkey : env.api_key.isSome = true)
    (hok : (generate_image env prompts output_path sp ep rps mr).outcome = Except.ok rd) :
    rd = (let items := prompts.enum.map
            (fun ip => processItem env prompts.length output_path ip.1 ip.2)
          let results := items.map ItemOut.result
          let succeeded := (results.filter (fun r => r.success)).length
          let failed := results.length - succeeded
          (⟨failed == 0,
            (if failed == 0 then ErrorCode.SUCCESS else ErrorCode.PARTIAL_FAILURE),
            none, results, prompts.length, succeeded, failed,
            some ((results.map (fun r => r.retries_used.getD 0)).sum)⟩ : ResultDict)) := by
  obtain ⟨k, hk⟩ := Option.isSome_iff_exists.mp hkey
  unfold generate_image at hok
  rw [hk] at hok
  dsimp only at hok
  cases hin : sharedInputsOk env sp ep rps with
  | false =>
    rw [if_neg (by simp [hin])] at hok
    exact absurd hok (by simp)
  | true =>
    rw [if_pos hin] at hok
    exact (Except.ok.inj hok).symm

/-- Shape of any failed per-item dictionary produced by the retry loop:
error kind and message are always populated, and the kind is never
invalid-input (that kind is only produced by the sanitizer path). -/
lemma retryLoop_result_shape
    (op : Nat → Except (List Char) (ItemResult × List (List Char))) (N : Nat)
    (hop : ∀ a r ws, op a = Except.ok (r, ws) → r.success = false →
        r.error_code.isSome = true ∧ r.error.isSome = true
        ∧ r.error_code ≠ some ErrorCode.INVALID_INPUT) :
    ∀ rem attempt ru,
      (retryLoop op N rem attempt ru).result.success = false →
      (retryLoop op N rem attempt ru).result.error_code.isSome = true
      ∧ (retryLoop op N rem attempt ru).result.error.isSome = true
      ∧ (retryLoop op N rem attempt ru).result.error_code ≠ some ErrorCode.INVALID_INPUT := by
  intro rem
  induction rem with
  | zero =>
    intro attempt ru
    rw [retryLoop.eq_def]
    dsimp only
    cases ho : op attempt with
    | ok pair =>
      obtain ⟨r, ws⟩ := pair
      dsimp only
      intro hf
      exact hop attempt r ws ho hf
    | error e =>
      dsimp only
      by_cases hre : is_retryable_error e = true
      · rw [if_pos hre]
        intro _
        refine ⟨rfl, rfl, ?_⟩
        dsimp only [exhaustResult]
        split <;> simp
      · rw [if_neg hre]
        intro _
        exact ⟨rfl, rfl, by simp [apiErrorResult]⟩
  | succ k ih =>
    intro attempt ru
    rw [retryLoop.eq_def]
    dsimp only
    cases ho : op attempt with
    | ok pair =>
      obtain ⟨r, ws⟩ := pair
      dsimp only
      intro hf
      exact hop attempt r ws ho hf
    | error e =>
      dsimp only
      by_cases hre : is_retryable_error e = true
      · rw [if_pos hre]
        exact ih (attempt + 1) (ru + 1)
      · rw [if_neg hre]
        intro _
        exact ⟨rfl, rfl, by simp [apiErrorResult]⟩

/-- Shape of any failed per-item dictionary produced by the batch loop. -/
lemma processItem_result_shape (env : Env) (n : Nat) (base : List Char)
    (i : Nat) (p : List Char) :
    (processItem env n base i p).result.success = false →
    (processItem env n base i p).result.error_code.isSome = true
    ∧ (processItem env n base i p).result.error.isSome = true
    ∧ ((processItem env n base i p).result.error_code = some ErrorCode.INVALID_INPUT →
        (processItem env n base i p).result.prompt.isSome = true) := by
  unfold processItem
  cases hs : sanitize_prompt p with
  | error e =>
    dsimp only
    intro _
    exact ⟨rfl, rfl, fun _ => rfl⟩
  | ok safe =>
    dsimp only
    intro hf
    have hshape := retryLoop_result_shape
      (fun a => generate_single_image env i a safe (genOutPath base n i))
      DEFAULT_MAX_RETRIES
      (fun a r ws hga hrf => by
        unfold generate_single_image at hga
        dsimp only at hga
        cases hresp : env.respond i a with
        | error e => rw [hresp] at hga; exact absurd hga (by simp)
        | ok parts =>
          rw [hresp] at hga
          dsimp only at hga
          cases hfind : parts.find? (fun pt => pt.inline_data.isSome) with
          | some pt =>
            rw [hfind] at hga
            dsimp only at hga
            obtain ⟨hr, _⟩ := Prod.mk.injEq .. ▸ (Except.ok.inj hga)
            rw [← hr] at hrf
            exact absurd hrf (by simp)
          | none =>
            rw [hfind] at hga
            dsimp only at hga
            obtain ⟨hr, _⟩ := Prod.mk.injEq .. ▸ (Except.ok.inj hga)
            rw [← hr]
            exact ⟨rfl, rfl, by simp⟩)
      DEFAULT_MAX_RETRIES 0 0 hf
    exact ⟨hshape.1, hshape.2.1, fun hcode => absurd hcode hshape.2.2⟩

/-! ## Batch-level claims -/

/-- C1: whenever the credential is present and `generate_image` returns a
batch dictionary, it contains exactly one per-item result per input prompt
in input order, satisfies `succeeded + failed = total = len(prompts)`, has
overall success iff `failed = 0`, and carries kind success exactly when
`failed = 0` and partial-failure otherwise. -/
theorem C1_batch_invariants (env : Env) (prompts : List (List Char))
    (output_path : List Char) (sp ep : Option (List Char))
    (rps : List (List Char)) (mr : Nat) (rd : ResultDict)
    (hkey : env.api_key.isSome = true)
    (hok : (generate_image env prompts output_path sp ep rps mr).outcome = Except.ok rd) :
    rd.results = prompts.enum.map
        (fun ip => (processItem env prompts.length output_path ip.1 ip.2).result)
    ∧ rd.results.length = prompts.length
    ∧ rd.total = prompts.length
    ∧ rd.succeeded + rd.failed = rd.total
    ∧ (rd.success = true ↔ rd.failed = 0)
    ∧ (rd.error_code = ErrorCode.SUCCESS ↔ rd.failed = 0)
    ∧ (rd.failed ≠ 0 → rd.error_code = ErrorCode.PARTIAL_FAILURE) := by
  have hrd := generate_image_ok_inversion env prompts output_path sp ep rps mr rd hkey hok
  subst hrd
  dsimp only
  generalize hres : (prompts.enum.map
      (fun ip => processItem env prompts.length output_path ip.1 ip.2)).map
        ItemOut.result = res
  have hlen : res.length = prompts.length := by
    rw [← hres]; simp
  have hsle : (res.filter (fun r => r.success)).length ≤ res.length :=
    List.length_filter_le _ _
  refine ⟨by rw [← hres, List.map_map]; rfl, hlen, rfl, by omega, by simp, ?_, ?_⟩
  · by_cases hf : res.length - (res.filter (fun r => r.success)).length = 0
    · simp [hf]
    · have hbeq : (res.length - (res.filter (fun r => r.success)).length == 0) = false := by
        simpa using hf
      simp [hbeq, hf]
  · intro hf
    have hbeq : (res.length - (res.filter (fun r => r.success)).length == 0) = false := by
      simpa using hf
    simp [hbeq]

/-- Environment in which the credential is set, every file exists and every
remote call returns one image part. -/
def okEnv : Env :=
  ⟨some ("k".toList), fun _ => true, fun _ _ => Except.ok [⟨some ("d".toList)⟩]⟩

/-- The batch dictionary returned by `okEnv` on the one-prompt batch
"hello". -/
def okDict : ResultDict :=
  ⟨true, ErrorCode.SUCCESS, none,
   [⟨some ("hello".toList), some ("out.png".toList), true,
     some ErrorCode.SUCCESS, none, some 0⟩], 1, 1, 0, some 0⟩

/-- Witness for C1 on a concrete all-success one-prompt batch. -/
theorem C1_batch_invariants_witness :
    okEnv.api_key.isSome = true
    ∧ (generate_image okEnv ["hello".toList] ("out.png".toList) none none [] 3).outcome =
        Except.ok okDict
    ∧ okDict.succeeded + okDict.failed = okDict.total
    ∧ (okDict.success = true ↔ okDict.failed = 0) :=
  ⟨rfl, rfl,
   (C1_batch_invariants okEnv ["hello".toList] ("out.png".toList) none none [] 3
      okDict rfl rfl).2.2.2.1,
   (C1_batch_invariants okEnv ["hello".toList] ("out.png".toList) none none [] 3
      okDict rfl rfl).2.2.2.2.1⟩

/-- C4: with the credential absent, `generate_image` returns the
missing-credential failure dictionary — empty results, total equal to the
prompt count, zero succeeded, all failed — and the run makes no remote
call, attempts no item, and writes no file (the returned call and write
traces are empty, and the result is a constant not depending on the
filesystem or the remote service). -/
theorem C4_missing_credential (env : Env) (prompts : List (List Char))
    (output_path : List Char) (sp ep : Option (List Char))
    (rps : List (List Char)) (mr : Nat)
    (h : env.api_key = none) :
    generate_image env prompts output_path sp ep rps mr =
      ⟨Except.ok (missingKeyDict prompts.length), [], []⟩
    ∧ (missingKeyDict prompts.length).success = false
    ∧ (missingKeyDict prompts.length).error_code = ErrorCode.API_KEY_MISSING
    ∧ (missingKeyDict prompts.length).results = []
    ∧ (missingKeyDict prompts.length).total = prompts.length
    ∧ (missingKeyDict prompts.length).succeeded = 0
    ∧ (missingKeyDict prompts.length).failed = prompts.length := by
  refine ⟨?_, rfl, rfl, rfl, rfl, rfl, rfl⟩
  unfold generate_image
  rw [h]

/-- Environment with no credential set. -/
def noKeyEnv : Env := ⟨none, fun _ => true, fun _ _ => Except.error []⟩

/-- Witness for C4 on a concrete two-prompt batch. -/
theorem C4_missing_credential_witness :
    noKeyEnv.api_key = none
    ∧ generate_image noKeyEnv ["a".toList, "b".toList] ("o.png".toList) none none [] 3 =
        ⟨Except.ok (missingKeyDict 2), [], []⟩ :=
  ⟨rfl, (C4_missing_credential noKeyEnv ["a".toList, "b".toList] ("o.png".toList)
      none none [] 3 rfl).1⟩

/-- C6: the sanitizer fails on empty or all-whitespace prompts (and the
batch then records an invalid-input item result, makes no remote call,
consumes no retry budget and keeps processing, one result per prompt);
a prompt containing a shell metacharacter is returned shlex-quoted whole;
any other prompt is returned unchanged. -/
theorem C6_sanitizer (p : List Char) :
    ((p.isEmpty || (pyStrip p).isEmpty) = true →
      sanitize_prompt p = Except.error emptyPromptMsg)
    ∧ ((p.isEmpty || (pyStrip p).isEmpty) = false → hasDangerousChar p = true →
      sanitize_prompt p = Except.ok (shlexQuote p))
    ∧ ((p.isEmpty || (pyStrip p).isEmpty) = false → hasDangerousChar p = false →
      sanitize_prompt p = Except.ok p)
    ∧ (∀ (env : Env) (n i : Nat) (base : List Char),
        (p.isEmpty || (pyStrip p).isEmpty) = true →
        processItem env n base i p = ⟨invalidInputResult p emptyPromptMsg, [], []⟩)
    ∧ (∀ (env : Env) (prompts : List (List Char)) (output_path : List Char)
        (sp ep : Option (List Char)) (rps : List (List Char)) (mr i : Nat)
        (rd : ResultDict),
        (generate_image env prompts output_path sp ep rps mr).outcome = Except.ok rd →
        prompts[i]? = some p →
        (p.isEmpty || (pyStrip p).isEmpty) = true →
        env.api_key.isSome = true →
        rd.results[i]? = some (invalidInputResult p emptyPromptMsg)
        ∧ rd.results.length = prompts.length) := by
  refine ⟨?_, ?_, ?_, ?_, ?_⟩
  · intro h
    simp [sanitize_prompt, h]
  · intro h1 h2
    simp [sanitize_prompt, h1, h2]
  · intro h1 h2
    simp [sanitize_prompt, h1, h2]
  · intro env n i base h
    simp [processItem, sanitize_prompt, h]
  · intro env prompts output_path sp ep rps mr i rd hok hpi hb hkey
    have hitem : processItem env prompts.length output_path i p =
        ⟨invalidInputResult p emptyPromptMsg, [], []⟩ := by
      simp [processItem, sanitize_prompt, hb]
    have hrd := generate_image_ok_inversion env prompts output_path sp ep rps mr rd hkey hok
    subst hrd
    dsimp only
    constructor
    · rw [List.getElem?_map, List.getElem?_map, List.getElem?_enum, hpi]
      simp [hitem]
    · simp

/-- Batch dictionary returned by `okEnv` on the two-prompt batch with a
blank first prompt. -/
def c6Dict : ResultDict :=
  ⟨false, ErrorCode.PARTIAL_FAILURE, none,
   [invalidInputResult [] emptyPromptMsg,
    ⟨some ("ok".toList), some ("o_002.png".toList), true,
     some ErrorCode.SUCCESS, none, some 0⟩], 2, 1, 1, some 0⟩

/-- Witness for C6: a blank prompt, a metacharacter prompt, a plain prompt,
and a concrete batch recording the invalid-input item and continuing. -/
theorem C6_sanitizer_witness :
    sanitize_prompt ("  ".toList) = Except.error emptyPromptMsg
    ∧ sanitize_prompt ("a!".toList) = Except.ok (shlexQuote ("a!".toList))
    ∧ shlexQuote ("a!".toList) = [squote, 'a', '!', squote]
    ∧ sanitize_prompt ("hello".toList) = Except.ok ("hello".toList)
    ∧ processItem okEnv 2 ("o.png".toList) 0 [] =
        ⟨invalidInputResult [] emptyPromptMsg, [], []⟩
    ∧ c6Dict.results[0]? = some (invalidInputResult [] emptyPromptMsg) :=
  ⟨(C6_sanitizer ("  ".toList)).1 rfl,
   (C6_sanitizer ("a!".toList)).2.1 rfl rfl,
   rfl,
   (C6_sanitizer ("hello".toList)).2.2.1 rfl rfl,
   (C6_sanitizer []).2.2.2.1 okEnv 2 0 ("o.png".toList) rfl,
   ((C6_sanitizer []).2.2.2.2 okEnv [[], "ok".toList] ("o.png".toList)
      none none [] 3 0 c6Dict rfl rfl rfl rfl).1⟩

/-- C5 (amended): for every failed item in a returned batch dictionary, the
error kind and the human-readable message are recoverable (both fields are
always populated on failure), and for invalid-input failures the original
prompt is recoverable as well; items that fail through a raised exception
carry no prompt field (see the counterexample). -/
theorem C5_failed_item_detail (env : Env) (prompts : List (List Char))
    (output_path : List Char) (sp ep : Option (List Char))
    (rps : List (List Char)) (mr : Nat) (rd : ResultDict)
    (hok : (generate_image env prompts output_path sp ep rps mr).outcome = Except.ok rd) :
    ∀ r ∈ rd.results, r.success = false →
      r.error_code.isSome = true ∧ r.error.isSome = true
      ∧ (r.error_code = some ErrorCode.INVALID_INPUT → r.prompt.isSome = true) := by
  cases hk : env.api_key with
  | none =>
    unfold generate_image at hok
    rw [hk] at hok
    dsimp only at hok
    have hrd : rd = missingKeyDict prompts.length := (Except.ok.inj hok).symm
    subst hrd
    intro r hr
    simp [missingKeyDict] at hr
  | some k =>
    have hrd := generate_image_ok_inversion env prompts output_path sp ep rps mr rd
      (by simp [hk]) hok
    subst hrd
    dsimp only
    intro r hr hf
    rw [List.map_map] at hr
    obtain ⟨ip, _, rfl⟩ := List.mem_map.mp hr
    exact processItem_result_shape env prompts.length output_path ip.1 ip.2 hf

/-- Environment whose remote call always raises the non-retryable error
"boom". -/
def failEnv : Env :=
  ⟨some ("k".toList), fun _ => true, fun _ _ => Except.error ("boom".toList)⟩

/-- Batch dictionary returned by `failEnv` on the one-prompt batch
"hello". -/
def c5Dict : ResultDict :=
  ⟨false, ErrorCode.PARTIAL_FAILURE, none,
   [apiErrorResult ("boom".toList) 0], 1, 0, 1, some 0⟩

/-- Counterexample to C5 as stated: in the batch over the single prompt
"hello" whose remote call raises a non-retryable error, the only (failed)
item dictionary carries no prompt field at all, so the caller cannot
recover the original prompt from the returned batch outcome. -/
theorem C5_counterexample :
    (generate_image failEnv ["hello".toList] ("out.png".toList) none none [] 3).outcome =
      Except.ok c5Dict
    ∧ c5Dict.results = [apiErrorResult ("boom".toList) 0]
    ∧ (apiErrorResult ("boom".toList) 0).success = false
    ∧ (apiErrorResult ("boom".toList) 0).prompt = none :=
  ⟨rfl, rfl, rfl, rfl⟩

/-- Witness for the amended C5 on the concrete failed batch. -/
theorem C5_failed_item_detail_witness :
    (apiErrorResult ("boom".toList) 0).error_code.isSome = true
    ∧ (apiErrorResult ("boom".toList) 0).error.isSome = true := by
  have T := C5_failed_item_detail failEnv ["hello".toList] ("out.png".toList)
    none none [] 3 c5Dict rfl
  have h := T (apiErrorResult ("boom".toList) 0) (by simp [c5Dict]) rfl
  exact ⟨h.1, h.2.1⟩

/-- C7 (amended): when the credential is present but any shared input file
(style, edit target or reference image) is absent, `generate_image` aborts
the whole batch once, by exiting the process with code 1, before any remote
call is made and before any file is written; no batch dictionary (in
particular none carrying `FILE_NOT_FOUND`) is returned. -/
theorem C7_missing_input_exits (env : Env) (prompts : List (List Char))
    (output_path : List Char) (sp ep : Option (List Char))
    (rps : List (List Char)) (mr : Nat) (k : List Char)
    (hkey : env.api_key = some k)
    (hmiss : sharedInputsOk env sp ep rps = false) :
    generate_image env prompts output_path sp ep rps mr = ⟨Except.error 1, [], []⟩ := by
  unfold generate_image
  rw [hkey]
  dsimp only
  rw [if_neg (by simp [hmiss])]

/-- Environment with the credential set but no file present. -/
def noFilesEnv : Env :=
  ⟨some ("k".toList), fun _ => false, fun _ _ => Except.error []⟩

/-- Counterexample to C7 as stated: with a missing style file the batch does
not return any outcome carrying the kind file-not-found — the process exits
with code 1 instead (the `FILE_NOT_FOUND` error code exists in the source
but is never attached to a result). -/
theorem C7_counterexample :
    generate_image noFilesEnv ["hi".toList] ("out.png".toList)
        (some ("style.md".toList)) none [] 3 = ⟨Except.error 1, [], []⟩
    ∧ (generate_image noFilesEnv ["hi".toList] ("out.png".toList)
        (some ("style.md".toList)) none [] 3).outcome.isOk = false :=
  ⟨rfl, rfl⟩

/-- Witness for the amended C7 on the concrete missing style file. -/
theorem C7_missing_input_exits_witness :
    noFilesEnv.api_key = some ("k".toList)
    ∧ sharedInputsOk noFilesEnv (some ("style.md".toList)) none [] = false
    ∧ generate_image noFilesEnv ["hi".toList] ("out.png".toList)
        (some ("style.md".toList)) none [] 3 = ⟨Except.error 1, [], []⟩ :=
  ⟨rfl, rfl,
   C7_missing_input_exits noFilesEnv ["hi".toList] ("out.png".toList)
     (some ("style.md".toList)) none [] 3 ("k".toList) rfl rfl⟩

/-- C9: with exactly one prompt the item's output path is the given path
verbatim; with more than one prompt the i-th item's path (0-based index i,
sequence number i+1) is the given path with an underscore and the
zero-padded three-digit sequence number inserted between the path's stem
and its file extension.  The hypotheses restrict the given path to a
normalised one: its final component is nonempty (no trailing slash) and its
directory part is not itself the bare "." or "/" produced by collapsing a
leading "./" or "//". -/
theorem C9_output_path_derivation (base : List Char) (n i : Nat)
    (h1 : (splitAtLast '/' base).2 ≠ [])
    (h2 : (splitAtLast '/' base).1 ≠ some ['.'])
    (h3 : (splitAtLast '/' base).1 ≠ some ['/']) :
    (n = 1 → genOutPath base n i = base)
    ∧ (1 < n → ∃ pre : List Char,
        base = pre ++ pySuffix (pyName base)
        ∧ genOutPath base n i =
            (pre ++ ('_' :: fmt03 (i + 1))) ++ pySuffix (pyName base))
    ∧ (i + 1 < 1000 → (fmt03 (i + 1)).length = 3) := by
  refine ⟨?_, ?_, fun hi => fmt03_length (i + 1) hi⟩
  · rintro rfl
    simp [genOutPath]
  · intro hn
    cases hsp : splitAtLast '/' base with
    | mk o nm =>
      have hname : pyName base = nm := by
        unfold pyName
        rw [hsp]
      cases o with
      | none =>
        have hb : base = nm := splitAtLast_none_eq '/' base nm hsp
        have hpar : pyParent base = ['.'] := by
          unfold pyParent
          rw [hsp]
        refine ⟨pyStem nm, ?_, ?_⟩
        · rw [hname, hb]
          exact (pyStem_append_pySuffix nm).symm
        · unfold genOutPath
          rw [if_pos hn, hname, hpar]
          unfold pyJoin
          rw [if_pos rfl]
      | some d =>
        have hb : base = d ++ '/' :: nm := splitAtLast_some_eq '/' base d nm hsp
        cases d with
        | nil =>
          have hpar : pyParent base = ['/'] := by
            unfold pyParent
            rw [hsp]
          refine ⟨'/' :: pyStem nm, ?_, ?_⟩
          · rw [hname, hb]
            simp [pyStem_append_pySuffix nm]
          · unfold genOutPath
            rw [if_pos hn, hname, hpar]
            unfold pyJoin
            rw [if_neg (by decide), if_pos rfl]
            simp [List.append_assoc]
        | cons c0 d0 =>
          have hd2 : (c0 :: d0) ≠ (['.'] : List Char) := by
            intro hcontra
            exact h2 (by rw [hsp, hcontra])
          have hd3 : (c0 :: d0) ≠ (['/'] : List Char) := by
            intro hcontra
            exact h3 (by rw [hsp, hcontra])
          have hpar : pyParent base = c0 :: d0 := by
            unfold pyParent
            rw [hsp]
          refine ⟨(c0 :: d0) ++ '/' :: pyStem nm, ?_, ?_⟩
          · rw [hname, hb]
            simp [pyStem_append_pySuffix nm]
          · unfold genOutPath
            rw [if_pos hn, hname, hpar]
            unfold pyJoin
            rw [if_neg hd2, if_neg hd3]
            simp [List.append_assoc]

/-- Witness for C9 on the concrete path "out.png": verbatim for one prompt,
"out_001.png" for the first item of a three-prompt batch, three digits. -/
theorem C9_output_path_derivation_witness :
    genOutPath ("out.png".toList) 1 0 = "out.png".toList
    ∧ (fmt03 1).length = 3
    ∧ genOutPath ("out.png".toList) 3 0 = "out_001.png".toList := by
  have T1 := C9_output_path_derivation ("out.png".toList) 1 0
    (by decide) (by decide) (by decide)
  have T3 := C9_output_path_derivation ("out.png".toList) 3 0
    (by decide) (by decide) (by decide)
  exact ⟨T1.1 rfl, T3.2.2 (by norm_num), rfl⟩
